import Mathlib

/-!
Verification of the QA Optimizer step (optimize_qa_mapper.py, class
OptimizeQAMapper) against its natural-language specification.

The Python code is shallowly embedded: dictionaries become association
lists with explicit KeyError, Python exceptions become an Except error
type, the lazily loaded model backends become an oracle record, and the
regular-expression engine is abstracted as a function from the raw reply
to the list of (group1, group2) tuples that re.findall would return; the
default pattern r".*?【问题】\s*(.*?)\s*【回答】\s*(.*)" under re.DOTALL is
implemented concretely as default_findall below.
-/

/-- Python exceptions that the embedded code can raise. -/
inductive PyError where
  | keyError (k : String)
  | indexError (i : Nat)
  | attributeError (msg : String)
  | assertionError (msg : String)
  | valueError (msg : String)
deriving DecidableEq, Repr

/-- The character class matched by the regex escape backslash-s in Python 3
on str patterns: ASCII whitespace plus the Unicode whitespace code points
(bidirectional classes WS, B, S and category Zs). -/
def pySpace (c : Char) : Bool :=
  let n := c.toNat
  (9 ≤ n && n ≤ 13) || n == 32 || (28 ≤ n && n ≤ 31) || n == 0x85 || n == 0xa0 ||
  n == 0x1680 || (0x2000 ≤ n && n ≤ 0x200a) || n == 0x2028 || n == 0x2029 ||
  n == 0x202f || n == 0x205f || n == 0x3000

/-- The literal 【问题】 ("question") marker of DEFAULT_OUTPUT_PATTERN. -/
def qMarker : List Char := ['【', '问', '题', '】']

/-- The literal 【回答】 ("answer") marker of DEFAULT_OUTPUT_PATTERN. -/
def aMarker : List Char := ['【', '回', '答', '】']

/-- Drop input characters up to and including the first occurrence of the
literal pat; none when pat does not occur. This realises the leftmost
match of the lazy prefix ".*?" followed by the literal, under DOTALL. -/
def dropToAfter (pat : List Char) : List Char → Option (List Char)
  | [] => none
  | c :: rest =>
    if pat.isPrefixOf (c :: rest) then some (List.drop pat.length (c :: rest))
    else dropToAfter pat rest

/-- Split l as g1 ++ ws ++ 【回答】 ++ v with g1 shortest (the lazy group
"(.*?)" followed by greedy whitespace and the answer marker); returns
(g1, v). Because 【 is not whitespace, the greedy whitespace run before
the marker is forced, so checking the marker after dropWhile pySpace at
each candidate end of g1, earliest end first, is exactly the
backtracking order of the Python engine. -/
def splitAtAnswer (l : List Char) : Option (List Char × List Char) :=
  if aMarker.isPrefixOf (l.dropWhile pySpace) then
    some ([], List.drop aMarker.length (l.dropWhile pySpace))
  else
    match l with
    | [] => none
    | c :: rest =>
      match splitAtAnswer rest with
      | some (g1, v) => some (c :: g1, v)
      | none => none

/-- re.findall(DEFAULT_OUTPUT_PATTERN, raw, re.DOTALL): the list of
two-group tuples. The pattern ends in the greedy "(.*)" which consumes to
the end of the input under DOTALL, so at most one match exists; the first
whitespace run after each marker is forced greedy (【 is not whitespace),
and a later occurrence of 【问题】 can only succeed when the first does,
so taking the first occurrence is faithful to the engine. -/
def default_findall (raw : String) : List (String × String) :=
  match dropToAfter qMarker raw.data with
  | none => []
  | some t1 =>
    match splitAtAnswer (t1.dropWhile pySpace) with
    | none => []
    | some (g1, v) => [(String.mk g1, String.mk (v.dropWhile pySpace))]

/-- OptimizeQAMapper.parse_output. The source runs
matches = re.findall(self.output_pattern, raw_output, re.DOTALL) and, when
matches is nonempty, evaluates matches[0].group(1): re.findall returns
plain tuples of group texts (or plain strings for fewer than two groups),
and neither tuples nor strings have a group attribute, so this line raises
AttributeError for every raw reply on which the pattern matches. The
strip-and-return is unreachable in that branch. With no match it returns
(None, None). The engine is abstracted as the findall argument. -/
def parse_output (findall : String → List (String × String)) (raw : String) :
    Except PyError (Option String × Option String) :=
  match findall raw with
  | [] => .ok (none, none)
  | _ :: _ => .error (.attributeError "tuple object has no attribute group")

example : default_findall "noise【问题】\n  New Q  \n【回答】\n  New A  \nmore noise" =
    [("New Q", "New A  \nmore noise")] := by decide

example : default_findall "garbage, no markers at all" = [] := by decide

/-- OptimizeQAMapper.DEFAULT_SYSTEM_PROMPT. -/
def DEFAULT_SYSTEM_PROMPT : String :=
  "请优化输入的问答对，使【问题】和【回答】都更加详细、准确。必须按照以下标记格式，直接输出优化后的问答对：\n【问题】\n优化后的问题\n【回答】\n优化后的回答"

/-- OptimizeQAMapper.DEFAULT_INPUT_TEMPLATE (one positional slot). -/
def DEFAULT_INPUT_TEMPLATE : String := "以下是原始问答对：\n\x7b\x7d"

/-- OptimizeQAMapper.DEFAULT_QA_PAIR_TEMPLATE (two positional slots). -/
def DEFAULT_QA_PAIR_TEMPLATE : String := "【问题】\n\x7b\x7d\n【回答】\n\x7b\x7d"

/-- OptimizeQAMapper.DEFAULT_OUTPUT_PATTERN, as the raw pattern text. -/
def DEFAULT_OUTPUT_PATTERN : String := ".*?【问题】\\s*(.*?)\\s*【回答】\\s*(.*)"

/-- The Python idiom x or default used in __init__ for the four overrides:
None and the empty string are both falsy, so either yields the default. -/
def orDefault (x : Option String) (d : String) : String :=
  match x with
  | none => d
  | some s => if s = "" then d else s

/-- The slice of the model_params dict that __init__ inspects. -/
structure ModelParams where
  tensor_parallel_size : Option Nat
deriving DecidableEq, Repr

/-- The key returned by prepare_model, identifying the prepared handle:
model type, model name and initialization parameters. -/
inductive ModelKey where
  | vllm (hf_model : String) (params : ModelParams)
  | huggingface (hf_model : String) (return_pipe : Bool) (params : ModelParams)
deriving DecidableEq, Repr

/-- Sampling parameters, an opaque dict passed through to generation. -/
abbrev SamplingParams := List (String × String)

/-- The state an OptimizeQAMapper instance holds after __init__. query_key,
response_key and num_proc come from the base operator configuration. -/
structure OptimizeQAMapper where
  system_prompt : String
  input_template : String
  qa_pair_template : String
  output_pattern : String
  enable_vllm : Bool
  sampling_params : SamplingParams
  model_key : ModelKey
  num_proc : Nat
  query_key : String
  response_key : String
deriving DecidableEq, Repr

/-- OptimizeQAMapper.__init__. cuda_device_count stands for
torch.cuda.device_count(); num_proc is the worker-process count set by the
base class from kwargs before the vllm branch may overwrite it. The assert
in the vllm branch raises AssertionError before any model handle is
prepared; in the embedding the error branch contains no ModelKey. -/
def initOptimizeQAMapper
    (hf_model : String)
    (system_prompt input_template qa_pair_template output_pattern : Option String)
    (enable_vllm : Bool)
    (model_params : Option ModelParams)
    (sampling_params : Option SamplingParams)
    (cuda_device_count : Nat)
    (num_proc : Nat) (query_key response_key : String) :
    Except PyError OptimizeQAMapper :=
  let sp := orDefault system_prompt DEFAULT_SYSTEM_PROMPT
  let it := orDefault input_template DEFAULT_INPUT_TEMPLATE
  let qt := orDefault qa_pair_template DEFAULT_QA_PAIR_TEMPLATE
  let op := orDefault output_pattern DEFAULT_OUTPUT_PATTERN
  let mp := model_params.getD { tensor_parallel_size := none }
  let samp := sampling_params.getD []
  if enable_vllm then
    if 1 ≤ cuda_device_count then
      let mp2 := if mp.tensor_parallel_size = none then
        { tensor_parallel_size := some cuda_device_count } else mp
      .ok { system_prompt := sp, input_template := it, qa_pair_template := qt,
            output_pattern := op, enable_vllm := true, sampling_params := samp,
            model_key := .vllm hf_model mp2, num_proc := 1,
            query_key := query_key, response_key := response_key }
    else
      .error (.assertionError "must be executed in CUDA")
  else
    .ok { system_prompt := sp, input_template := it, qa_pair_template := qt,
          output_pattern := op, enable_vllm := false, sampling_params := samp,
          model_key := .huggingface hf_model true mp, num_proc := num_proc,
          query_key := query_key, response_key := response_key }

/-- Python dict lookup d[k]: KeyError when the key is absent. -/
def dictGet (d : List (String × String)) (k : String) : Except PyError String :=
  match d.find? (fun kv => kv.1 = k) with
  | some kv => .ok kv.2
  | none => .error (.keyError k)

/-- Python dict assignment d[k] = v: overwrite in place, or append a new
entry (Python dicts keep insertion order). -/
def dictSet (d : List (String × String)) (k v : String) : List (String × String) :=
  if d.any (fun kv => kv.1 = k) then
    d.map (fun kv => if kv.1 = k then (k, v) else kv)
  else d ++ [(k, v)]

/-- str.format with auto-numbered positional fields, the subset the
templates use: \x7b\x7d is a slot taking the next argument, \x7b\x7b and
\x7d\x7d are escaped braces, a lone brace raises ValueError, a slot with
no argument left raises IndexError, and spare arguments are ignored. -/
def pyFormat : List Char → List (List Char) → Except PyError (List Char)
  | [], _ => .ok []
  | '\x7b' :: '\x7b' :: rest, args =>
    (pyFormat rest args).map (fun t => '\x7b' :: t)
  | '\x7d' :: '\x7d' :: rest, args =>
    (pyFormat rest args).map (fun t => '\x7d' :: t)
  | '\x7b' :: '\x7d' :: rest, a :: args =>
    (pyFormat rest args).map (fun t => a ++ t)
  | '\x7b' :: '\x7d' :: _, [] =>
    .error (.indexError 0)
  | '\x7b' :: _, _ => .error (.valueError "Single open brace encountered in format string")
  | '\x7d' :: _, _ => .error (.valueError "Single close brace encountered in format string")
  | c :: rest, args => (pyFormat rest args).map (fun t => c :: t)

/-- OptimizeQAMapper.build_input: format question and answer into the
QA-pair template, then wrap in the input template. -/
def build_input (m : OptimizeQAMapper) (sample : List (String × String)) :
    Except PyError String := do
  let q ← dictGet sample m.query_key
  let a ← dictGet sample m.response_key
  let qa ← pyFormat m.qa_pair_template.data [q.data, a.data]
  let ip ← pyFormat m.input_template.data [qa]
  return String.mk ip

/-- One turn of the conversation passed to the model. -/
structure Message where
  role : String
  content : String
deriving DecidableEq, Repr

/-- The arguments of one call to the pipeline backend: the messages, the
return_full_text flag and the generation parameters. -/
structure PipeInvocation where
  messages : List Message
  return_full_text : Bool
  sampling_params : SamplingParams
deriving DecidableEq, Repr

/-- One element of the pipeline response list. -/
structure PipeResult where
  generated_text : String
deriving DecidableEq, Repr

/-- One output of a vllm completion. -/
structure VllmOutput where
  text : String
deriving DecidableEq, Repr

/-- One element of the vllm chat response list. -/
structure VllmCompletion where
  outputs : List VllmOutput
deriving DecidableEq, Repr

/-- The external model collaborator, abstracted as pure oracles for the
two backends (get_model resolution and device placement are external). -/
structure ModelOracle where
  chat : List Message → SamplingParams → List VllmCompletion
  pipe : PipeInvocation → List PipeResult

/-- A record of one model call made by process_single. -/
inductive ModelCall where
  | chat (messages : List Message) (params : SamplingParams)
  | pipe (inv : PipeInvocation)
deriving DecidableEq, Repr

/-- Python list indexing l[i]: IndexError when out of range. -/
def listGet {α : Type} (l : List α) (i : Nat) : Except PyError α :=
  match l.get? i with
  | some x => .ok x
  | none => .error (.indexError i)

/-- The two-turn conversation process_single builds: one system turn with
the configured system prompt, one user turn with the built input. -/
def messagesFor (m : OptimizeQAMapper) (input_prompt : String) : List Message :=
  [{ role := "system", content := m.system_prompt },
   { role := "user", content := input_prompt }]

/-- The two truthiness-guarded field writes at the end of process_single:
a parsed half replaces its field only when it is neither None nor the
empty string. -/
def mergeParsed (m : OptimizeQAMapper) (sample : List (String × String))
    (pq pa : Option String) : List (String × String) :=
  let s1 := match pq with
    | some q => if q = "" then sample else dictSet sample m.query_key q
    | none => sample
  match pa with
  | some a => if a = "" then s1 else dictSet s1 m.response_key a
  | none => s1

/-- The tail of process_single from the raw model output on: parse it and
merge the parsed halves into the record. -/
def afterOutput (m : OptimizeQAMapper) (findall : String → List (String × String))
    (sample : List (String × String)) (output : String) :
    Except PyError (List (String × String)) :=
  match parse_output findall output with
  | .error e => .error e
  | .ok (pq, pa) => .ok (mergeParsed m sample pq pa)

/-- The pipeline branch after the call: output = response[0].generated_text,
then the shared tail. -/
def pipeDispatch (m : OptimizeQAMapper) (findall : String → List (String × String))
    (sample : List (String × String)) (response : List PipeResult) :
    Except PyError (List (String × String)) :=
  match listGet response 0 with
  | .error e => .error e
  | .ok r => afterOutput m findall sample r.generated_text

/-- The vllm branch after the call: output = response[0].outputs[0].text,
then the shared tail. -/
def chatDispatch (m : OptimizeQAMapper) (findall : String → List (String × String))
    (sample : List (String × String)) (response : List VllmCompletion) :
    Except PyError (List (String × String)) :=
  match listGet response 0 with
  | .error e => .error e
  | .ok r =>
    match listGet r.outputs 0 with
    | .error e => .error e
    | .ok o => afterOutput m findall sample o.text

/-- OptimizeQAMapper.process_single. Alongside the Except result the
embedding returns the list of model calls made, so that what was sent to
the collaborator is part of the observable behaviour. Dict mutation is
state passing: the returned record is the (possibly updated) input
association list. -/
def process_single (m : OptimizeQAMapper) (findall : String → List (String × String))
    (model : ModelOracle) (sample : List (String × String)) :
    Except PyError (List (String × String)) × List ModelCall :=
  match build_input m sample with
  | .error e => (.error e, [])
  | .ok input_prompt =>
    if m.enable_vllm then
      (chatDispatch m findall sample (model.chat (messagesFor m input_prompt) m.sampling_params),
       [.chat (messagesFor m input_prompt) m.sampling_params])
    else
      (pipeDispatch m findall sample
         (model.pipe ⟨messagesFor m input_prompt, false, m.sampling_params⟩),
       [.pipe ⟨messagesFor m input_prompt, false, m.sampling_params⟩])

/-- A mapper built from the all-default configuration (pipeline backend,
default templates and pattern, base keys query/response, num_proc 4). -/
def mapperWithDefaults : OptimizeQAMapper :=
  { system_prompt := DEFAULT_SYSTEM_PROMPT, input_template := DEFAULT_INPUT_TEMPLATE,
    qa_pair_template := DEFAULT_QA_PAIR_TEMPLATE, output_pattern := DEFAULT_OUTPUT_PATTERN,
    enable_vllm := false, sampling_params := [],
    model_key := .huggingface "Qwen/Qwen2.5-7B-Instruct" true { tensor_parallel_size := none },
    num_proc := 4, query_key := "query", response_key := "response" }

/-- An oracle whose two backends always answer with the same fixed text. -/
def constReplyOracle (reply : String) : ModelOracle :=
  { chat := fun _ _ => [{ outputs := [{ text := reply }] }],
    pipe := fun _ => [{ generated_text := reply }] }

/-- A concrete record with one extra field beside question and answer. -/
def sampleQA : List (String × String) :=
  [("query", "Q1"), ("response", "A1"), ("meta", "keep")]

/-- A concrete two-field record. -/
def exampleSample : List (String × String) := [("query", "Q1"), ("response", "A1")]

/-- The prompt build_input produces from exampleSample under defaults. -/
def examplePrompt : String := "以下是原始问答对：\n【问题】\nQ1\n【回答】\nA1"

/-- Sanity check: initOptimizeQAMapper with all defaults and the pipeline
backend yields exactly mapperWithDefaults. -/
theorem initOptimizeQAMapper_defaults_eq :
    initOptimizeQAMapper "Qwen/Qwen2.5-7B-Instruct" none none none none false
      none none 0 4 "query" "response" = .ok mapperWithDefaults := rfl

/-- The only ok value of parse_output is the (None, None) no-match pair. -/
theorem parse_output_ok_eq (findall : String → List (String × String)) (raw : String)
    (p : Option String × Option String) (h : parse_output findall raw = .ok p) :
    p = (none, none) := by
  unfold parse_output at h
  cases hf : findall raw with
  | nil => rw [hf] at h; exact (Except.ok.inj h).symm
  | cons a l => rw [hf] at h; cases h

/-- When the tail of process_single returns ok, the record is unchanged:
with the AttributeError in parse_output, the merge only ever runs on the
(None, None) pair. -/
theorem afterOutput_ok_eq (m : OptimizeQAMapper)
    (findall : String → List (String × String))
    (sample s' : List (String × String)) (output : String)
    (h : afterOutput m findall sample output = .ok s') : s' = sample := by
  unfold afterOutput at h
  cases hp : parse_output findall output with
  | error e => rw [hp] at h; cases h
  | ok p =>
    have hpe := parse_output_ok_eq findall output p hp
    subst hpe
    rw [hp] at h
    exact (Except.ok.inj h).symm

/-- The pipeline branch returns ok only with the record unchanged. -/
theorem pipeDispatch_ok_eq (m : OptimizeQAMapper)
    (findall : String → List (String × String))
    (sample s' : List (String × String)) (response : List PipeResult)
    (h : pipeDispatch m findall sample response = .ok s') : s' = sample := by
  unfold pipeDispatch at h
  cases hg : listGet response 0 with
  | error e => rw [hg] at h; cases h
  | ok r => rw [hg] at h; exact afterOutput_ok_eq m findall sample s' r.generated_text h

/-- The vllm branch returns ok only with the record unchanged. -/
theorem chatDispatch_ok_eq (m : OptimizeQAMapper)
    (findall : String → List (String × String))
    (sample s' : List (String × String)) (response : List VllmCompletion)
    (h : chatDispatch m findall sample response = .ok s') : s' = sample := by
  unfold chatDispatch at h
  cases hg : listGet response 0 with
  | error e => simp only [hg] at h; exact Except.noConfusion h
  | ok r =>
    simp only [hg] at h
    cases ho : listGet r.outputs 0 with
    | error e => simp only [ho] at h; exact Except.noConfusion h
    | ok o =>
      simp only [ho] at h
      exact afterOutput_ok_eq m findall sample s' o.text h

/-- Whenever process_single returns a record, it is the input record. -/
theorem process_single_ok_eq (m : OptimizeQAMapper)
    (findall : String → List (String × String)) (model : ModelOracle)
    (sample s' : List (String × String))
    (h : (process_single m findall model sample).1 = .ok s') : s' = sample := by
  unfold process_single at h
  cases hb : build_input m sample with
  | error e => simp only [hb] at h; exact Except.noConfusion h
  | ok input_prompt =>
    simp only [hb] at h
    by_cases hv : m.enable_vllm = true
    · simp only [hv, if_true] at h
      exact chatDispatch_ok_eq m findall sample s' _ h
    · simp only [hv, if_false] at h
      exact pipeDispatch_ok_eq m findall sample s' _ h

/-- C1: the spec claims that for every raw reply on which the configured
output pattern (DOTALL) finds at least one match, parse_output returns the
first match's two stripped capture groups, with the example reply parsing
to ("New Q", "New A"). The code refutes this: the default pattern does
match the example reply, yet parse_output raises AttributeError there,
because re.findall returns tuples and matches[0].group(1) is attribute
access on a tuple. -/
theorem c1_parse_output_raises_attribute_error_on_match :
    default_findall "noise【问题】\n  New Q  \n【回答】\n  New A  \nmore noise" ≠ [] ∧
    parse_output default_findall "noise【问题】\n  New Q  \n【回答】\n  New A  \nmore noise" =
      .error (.attributeError "tuple object has no attribute group") := by
  exact ⟨by decide, rfl⟩

/-- The first match of the default pattern on the spec's example reply:
the first group is "New Q", but the second, greedy group runs to the end
of the input, so even the intended (non-crashing) extraction would not
yield "New A". -/
theorem default_findall_example_groups :
    default_findall "noise【问题】\n  New Q  \n【回答】\n  New A  \nmore noise" =
      [("New Q", "New A  \nmore noise")] := by decide

/-- C2: for every raw reply on which the configured output pattern finds
no match, parse_output returns (None, None) without raising. -/
theorem c2_parse_output_no_match_returns_none_pair
    (findall : String → List (String × String)) (raw : String)
    (h : findall raw = []) :
    parse_output findall raw = .ok (none, none) := by
  unfold parse_output
  rw [h]

/-- Witness for C2 at the spec's concrete example reply. -/
theorem c2_no_match_witness :
    default_findall "garbage, no markers at all" = [] ∧
    parse_output default_findall "garbage, no markers at all" = .ok (none, none) :=
  ⟨by decide,
   c2_parse_output_no_match_returns_none_pair default_findall
     "garbage, no markers at all" (by decide)⟩

/-- The per-field invariant of claim C3: the field at key k is either
unchanged or holds a non-empty replacement value. -/
def fieldKeptOrReplaced (sample s' : List (String × String)) (k : String) : Prop :=
  dictGet s' k = dictGet sample k ∨ ∃ v, v ≠ "" ∧ dictGet s' k = .ok v

/-- C3: whenever process_single returns a record, each of the question
field and the answer field is either left equal to its original value or
replaced by a non-empty parsed string; and for every model reply on which
the pattern finds nothing (no recognizable section markers), the
post-reply processing returns the record with both fields retaining their
original values. -/
theorem c3_fields_original_or_nonempty_parsed
    (m : OptimizeQAMapper) (findall : String → List (String × String))
    (model : ModelOracle) (sample s' : List (String × String))
    (h : (process_single m findall model sample).1 = .ok s') :
    (fieldKeptOrReplaced sample s' m.query_key ∧
     fieldKeptOrReplaced sample s' m.response_key) ∧
    ∀ raw, findall raw = [] → afterOutput m findall sample raw = .ok sample := by
  have hs := process_single_ok_eq m findall model sample s' h
  subst hs
  refine ⟨⟨Or.inl rfl, Or.inl rfl⟩, ?_⟩
  intro raw hraw
  unfold afterOutput
  rw [c2_parse_output_no_match_returns_none_pair findall raw hraw]
  rfl

/-- Witness for C3: a concrete pipeline run whose reply has no markers
returns the record unchanged, the extra field included. -/
theorem c3_witness :
    (fieldKeptOrReplaced sampleQA sampleQA "query" ∧
     fieldKeptOrReplaced sampleQA sampleQA "response") ∧
    afterOutput mapperWithDefaults default_findall sampleQA
      "garbage, no markers at all" = .ok sampleQA := by
  have h := c3_fields_original_or_nonempty_parsed mapperWithDefaults default_findall
    (constReplyOracle "garbage, no markers at all") sampleQA sampleQA rfl
  exact ⟨h.1, h.2 "garbage, no markers at all" (by decide)⟩

/-- C4: the spec claims that a reply matching the output format with an
empty question section still gets its answer half accepted, the question
field keeping its original value. The code refutes this: the default
pattern matches such a reply with groups ("", "New A"), but process_single
propagates the AttributeError raised inside parse_output, so neither field
is ever updated for a matching reply. -/
theorem c4_partial_match_raises_instead_of_updating_answer :
    default_findall "【问题】\n\n【回答】\nNew A" = [("", "New A")] ∧
    (process_single mapperWithDefaults default_findall
        (constReplyOracle "【问题】\n\n【回答】\nNew A") sampleQA).1 =
      .error (.attributeError "tuple object has no attribute group") := by
  exact ⟨by decide, rfl⟩

/-- C5: with the default templates, build_input on question "Q1" and
answer "A1" yields exactly the nested-template string. -/
theorem c5_build_input_default_templates :
    build_input mapperWithDefaults exampleSample =
      .ok "以下是原始问答对：\n【问题】\nQ1\n【回答】\nA1" := rfl

/-- C6: requesting the vllm engine with no CUDA device available fails at
construction with the AssertionError of the precondition check, for every
other configuration; the error branch yields no mapper and hence no
prepared model handle, and in particular no silent fall back to the
pipeline backend. -/
theorem c6_vllm_without_cuda_fails_at_construction
    (hf : String) (sp it qt op : Option String) (mp : Option ModelParams)
    (samp : Option SamplingParams) (np : Nat) (qk rk : String) :
    initOptimizeQAMapper hf sp it qt op true mp samp 0 np qk rk =
      .error (.assertionError "must be executed in CUDA") := rfl

/-- C7: with the vllm backend selected (and the construction succeeding,
which needs at least one CUDA device) the worker-process count is set to
exactly one; with the pipeline backend it stays at the value the base
configuration gave it. -/
theorem c7_num_proc_one_for_vllm_unchanged_for_pipeline
    (hf : String) (sp it qt op : Option String) (mp : Option ModelParams)
    (samp : Option SamplingParams) (dc np : Nat) (qk rk : String)
    (h : 1 ≤ dc) :
    (initOptimizeQAMapper hf sp it qt op true mp samp dc np qk rk).map
        (fun m => m.num_proc) = .ok 1 ∧
    (initOptimizeQAMapper hf sp it qt op false mp samp dc np qk rk).map
        (fun m => m.num_proc) = .ok np := by
  constructor
  · simp [initOptimizeQAMapper, h, Except.map]
  · rfl

/-- Witness for C7 at a one-device configuration with base count 4. -/
theorem c7_witness :
    (initOptimizeQAMapper "Qwen/Qwen2.5-7B-Instruct" none none none none true
        none none 1 4 "query" "response").map (fun m => m.num_proc) = .ok 1 ∧
    (initOptimizeQAMapper "Qwen/Qwen2.5-7B-Instruct" none none none none false
        none none 1 4 "query" "response").map (fun m => m.num_proc) = .ok 4 :=
  c7_num_proc_one_for_vllm_unchanged_for_pipeline "Qwen/Qwen2.5-7B-Instruct"
    none none none none none none 1 4 "query" "response" (by decide)

/-- C8: whenever process_single returns a record, every field other than
the configured question field and the configured answer field holds its
original value. In the embedding the in-place dict mutation is state
passing, so the returned association list is the updated caller record. -/
theorem c8_process_single_writes_only_configured_fields
    (m : OptimizeQAMapper) (findall : String → List (String × String))
    (model : ModelOracle) (sample s' : List (String × String)) (k : String)
    (h : (process_single m findall model sample).1 = .ok s')
    (_hq : k ≠ m.query_key) (_hr : k ≠ m.response_key) :
    dictGet s' k = dictGet sample k := by
  rw [process_single_ok_eq m findall model sample s' h]

/-- Witness for C8: a concrete run leaves the extra "meta" field intact. -/
theorem c8_witness :
    dictGet sampleQA "meta" = dictGet sampleQA "meta" :=
  c8_process_single_writes_only_configured_fields mapperWithDefaults default_findall
    (constReplyOracle "garbage, no markers at all") sampleQA sampleQA "meta"
    rfl (by decide) (by decide)

/-- C9: for every record whose input builds successfully, process_single
makes exactly one model call carrying the two-turn conversation - a
system turn with the configured system prompt followed by a user turn
with the built input - on whichever backend is configured; on the
pipeline backend the call carries return_full_text = false and the
configured generation parameters, and the raw reply taken from a
non-empty response is the first result's generated_text field. -/
theorem c9_two_turn_conversation_and_pipeline_call_shape
    (m : OptimizeQAMapper) (findall : String → List (String × String))
    (model : ModelOracle) (sample : List (String × String)) (p : String)
    (hb : build_input m sample = .ok p) :
    (m.enable_vllm = false →
      process_single m findall model sample =
        (pipeDispatch m findall sample
           (model.pipe ⟨[⟨"system", m.system_prompt⟩, ⟨"user", p⟩], false,
              m.sampling_params⟩),
         [.pipe ⟨[⟨"system", m.system_prompt⟩, ⟨"user", p⟩], false,
            m.sampling_params⟩])) ∧
    (m.enable_vllm = true →
      process_single m findall model sample =
        (chatDispatch m findall sample
           (model.chat [⟨"system", m.system_prompt⟩, ⟨"user", p⟩] m.sampling_params),
         [.chat [⟨"system", m.system_prompt⟩, ⟨"user", p⟩] m.sampling_params])) ∧
    (∀ r rest, pipeDispatch m findall sample (r :: rest) =
        afterOutput m findall sample r.generated_text) := by
  refine ⟨?_, ?_, ?_⟩
  · intro hv
    unfold process_single
    rw [hb]
    rw [hv]
    rfl
  · intro hv
    unfold process_single
    rw [hb]
    rw [hv]
    rfl
  · intro r rest
    rfl

/-- Witness for C9: the concrete pipeline run makes exactly the expected
single call, and a one-element response is read at its generated_text. -/
theorem c9_witness :
    (process_single mapperWithDefaults default_findall
        (constReplyOracle "garbage, no markers at all") exampleSample =
      (pipeDispatch mapperWithDefaults default_findall exampleSample
         ((constReplyOracle "garbage, no markers at all").pipe
            ⟨[⟨"system", mapperWithDefaults.system_prompt⟩, ⟨"user", examplePrompt⟩],
             false, mapperWithDefaults.sampling_params⟩),
       [.pipe ⟨[⟨"system", mapperWithDefaults.system_prompt⟩, ⟨"user", examplePrompt⟩],
          false, mapperWithDefaults.sampling_params⟩])) ∧
    pipeDispatch mapperWithDefaults default_findall exampleSample
        [⟨"garbage, no markers at all"⟩] =
      afterOutput mapperWithDefaults default_findall exampleSample
        "garbage, no markers at all" := by
  have h := c9_two_turn_conversation_and_pipeline_call_shape mapperWithDefaults
    default_findall (constReplyOracle "garbage, no markers at all") exampleSample
    examplePrompt rfl
  exact ⟨h.1 rfl, h.2.2 ⟨"garbage, no markers at all"⟩ []⟩

/-- A default string option is never empty when its default is not. -/
theorem orDefault_ne_empty (x : Option String) (d : String) (hd : d ≠ "") :
    orDefault x d ≠ "" := by
  cases x with
  | none => exact hd
  | some s =>
    show (if s = "" then d else s) ≠ ""
    by_cases hs : s = ""
    · rw [if_pos hs]; exact hd
    · rw [if_neg hs]; exact hs

/-- C10: for each of the four overrides (system prompt, input template,
QA-pair template, output pattern), constructing with the empty string is
the same as constructing with None - the Python or-idiom treats both as
falsy - and consequently every successfully constructed mapper has a
non-empty system prompt, input template, QA-pair template and output
pattern. -/
theorem c10_empty_string_overrides_fall_back_to_defaults
    (hf : String) (sp it qt op : Option String) (ev : Bool)
    (mp : Option ModelParams) (samp : Option SamplingParams)
    (dc np : Nat) (qk rk : String) :
    (initOptimizeQAMapper hf (some "") it qt op ev mp samp dc np qk rk =
       initOptimizeQAMapper hf none it qt op ev mp samp dc np qk rk) ∧
    (initOptimizeQAMapper hf sp (some "") qt op ev mp samp dc np qk rk =
       initOptimizeQAMapper hf sp none qt op ev mp samp dc np qk rk) ∧
    (initOptimizeQAMapper hf sp it (some "") op ev mp samp dc np qk rk =
       initOptimizeQAMapper hf sp it none op ev mp samp dc np qk rk) ∧
    (initOptimizeQAMapper hf sp it qt (some "") ev mp samp dc np qk rk =
       initOptimizeQAMapper hf sp it qt none ev mp samp dc np qk rk) ∧
    (∀ m, initOptimizeQAMapper hf sp it qt op ev mp samp dc np qk rk = .ok m →
       m.system_prompt ≠ "" ∧ m.input_template ≠ "" ∧
       m.qa_pair_template ≠ "" ∧ m.output_pattern ≠ "") := by
  refine ⟨rfl, rfl, rfl, rfl, ?_⟩
  intro m h
  have hsp := orDefault_ne_empty sp DEFAULT_SYSTEM_PROMPT (by decide)
  have hit := orDefault_ne_empty it DEFAULT_INPUT_TEMPLATE (by decide)
  have hqt := orDefault_ne_empty qt DEFAULT_QA_PAIR_TEMPLATE (by decide)
  have hop := orDefault_ne_empty op DEFAULT_OUTPUT_PATTERN (by decide)
  unfold initOptimizeQAMapper at h
  cases ev with
  | true =>
    by_cases hdc : 1 ≤ dc
    · simp only [if_pos hdc, if_true] at h
      cases h
      exact ⟨hsp, hit, hqt, hop⟩
    · simp only [if_neg hdc, if_true] at h
      exact Except.noConfusion h
  | false =>
    simp only [if_false] at h
    cases h
    exact ⟨hsp, hit, hqt, hop⟩

/-- Witness for C10: the all-default construction yields a mapper whose
four texts are all non-empty. -/
theorem c10_witness :
    mapperWithDefaults.system_prompt ≠ "" ∧ mapperWithDefaults.input_template ≠ "" ∧
    mapperWithDefaults.qa_pair_template ≠ "" ∧ mapperWithDefaults.output_pattern ≠ "" :=
  (c10_empty_string_overrides_fall_back_to_defaults "Qwen/Qwen2.5-7B-Instruct"
      none none none none false none none 0 4 "query" "response").2.2.2.2
    mapperWithDefaults rfl
